import Mathlib

/-!
Verification of the fan-out message mirroring engine of `conduction-tines`.

This file gives a shallow embedding, in Lean, of the parts of the repository
that the specification makes claims about:

* `conduction/schemas.py`: the `MirroredChannel` mirror registry (rows of the
  `mirrored_channel` table together with the module-level in-memory
  destination cache `_dests_cache`), the `ServerStatistics` table, and the
  operations `add_mirror`, `fetch_dests`, `get_or_fetch_dests`,
  `reset_dests_cache`, `remove_mirror`,
  `log_legacy_mirror_success_in_batch`, `log_legacy_mirror_failure_in_batch`,
  `get_legacy_failing_mirrors`, `disable_legacy_failing_mirrors`,
  `get_legacy_mirrors_disabled_for_failure`, `undo_auto_disable_for_failure`.
* `conduction/modules/mirror.py`: the create-fan-out engine
  (`message_create_repeater_impl` with its inner `kernel` and the
  done-task partition loop), the progress reporter
  (`log_mirror_progress_to_discord`), and the `TimedSemaphore` rate limiter.

Database rows are modelled as lists of records; SQL `UPDATE ... WHERE`
becomes a `List.map` guarded by the where-clause, SQL `SELECT ... WHERE`
becomes `List.filter`, and the `ORDER BY desc(coalesce(population, 10^12))`
clause becomes an insertion sort by that key.  The Python `defaultdict`
cache is modelled as an association list whose bracket access materialises
an empty entry, exactly as `defaultdict.__getitem__` does.  Timestamps are
naturals.  Python exceptions that a function can raise or catch are
modelled with `Except`.
-/

namespace Conduction

/-- One row of the `mirrored_channel` table (class `MirroredChannel` in
`schemas.py`).  `legacy_disable_for_failure_on_date` is `none` for SQL NULL. -/
structure MirrorEdge where
  src_id : Nat
  dest_id : Nat
  dest_server_id : Option Nat
  legacy : Bool
  enabled : Bool
  legacy_error_rate : Nat
  legacy_disable_for_failure_on_date : Option Nat
deriving Repr, DecidableEq

/-- One row of the `server_statistics` table (`ServerStatistics` in
`schemas.py`): server id paired with its (nullable) population. -/
structure ServerStat where
  id : Nat
  population : Option Nat
deriving Repr, DecidableEq

/-- The in-memory destination cache `MirroredChannel._dests_cache`,
a `defaultdict(list)` keyed by source channel id. -/
def DestsCache := List (Nat × List Nat)
deriving DecidableEq

/-- Full mirror-registry state: the `mirrored_channel` rows, the
`server_statistics` rows and the in-memory destination cache. -/
structure RegState where
  edges : List MirrorEdge
  stats : List ServerStat
  cache : DestsCache
deriving DecidableEq

/-- Dictionary lookup (`k in d` / `d.get(k)`): value of the first entry with
the given key. -/
def cacheLookup (c : DestsCache) (k : Nat) : Option (List Nat) :=
  (List.find? (fun p => p.1 == k) c).map (fun p => p.2)

/-- Dictionary assignment `d[k] = v`: replace the first entry with the given
key, or append a new entry. -/
def cacheSet (c : DestsCache) (k : Nat) (v : List Nat) : DestsCache :=
  match c with
  | [] => [(k, v)]
  | p :: rest => if p.1 == k then (k, v) :: rest else p :: cacheSet rest k v

/-- `defaultdict.__getitem__`: return the entry for `k`, materialising an
empty list in the dictionary if `k` is absent (as Python's
`cls._dests_cache[src_id]` does). -/
def cacheGetItem (c : DestsCache) (k : Nat) : List Nat × DestsCache :=
  match cacheLookup c k with
  | some v => (v, c)
  | none => ([], cacheSet c k [])

/-- Python `list.remove(x)`: delete the first occurrence of `x`, raising
`ValueError` if `x` is absent. -/
def listRemove (l : List Nat) (x : Nat) : Except String (List Nat) :=
  match l with
  | [] => .error "ValueError"
  | y :: ys =>
    if y == x then .ok ys
    else (listRemove ys x).map (fun r => y :: r)

/-- The population the outer join of `fetch_dests` sees for an edge's owning
server: `none` when the edge has no `dest_server_id`, no `server_statistics`
row matches it, or the row's population is NULL — the "unknown population"
cases. -/
def destPopulation (stats : List ServerStat) (e : MirrorEdge) : Option Nat :=
  e.dest_server_id.bind (fun sid =>
    (List.find? (fun s => s.id == sid) stats).bind (fun s => s.population))

/-- The sort key of `fetch_dests`'s `order_by` clause:
`coalesce(ServerStatistics.population, 10**12)` — an unknown population
coalesces to the sentinel `10^12`. -/
def destSortKey (stats : List ServerStat) (e : MirrorEdge) : Nat :=
  (destPopulation stats e).getD (10 ^ 12)

/-- Insert into a list sorted by strictly descending key, used to model the
SQL `ORDER BY desc(...)` (ties are left in an unspecified relative order by
SQL; this model keeps a definite one). -/
def insertByKeyDesc (key : MirrorEdge → Nat) (x : MirrorEdge) :
    List MirrorEdge → List MirrorEdge
  | [] => [x]
  | y :: ys =>
    if key y < key x then x :: y :: ys else y :: insertByKeyDesc key x ys

/-- Sort by descending key (model of `ORDER BY desc(...)`). -/
def sortByKeyDesc (key : MirrorEdge → Nat) : List MirrorEdge → List MirrorEdge
  | [] => []
  | x :: xs => insertByKeyDesc key x (sortByKeyDesc key xs)

/-- Row-level where-clause of `MirroredChannel.fetch_dests`: `src_id`
matches, and the `legacy` / `enabled` filters apply only when not `None`. -/
def fetchDestsClause (src : Nat) (legacy enabled : Option Bool)
    (e : MirrorEdge) : Bool :=
  e.src_id == src
    && (match legacy with | none => true | some l => e.legacy == l)
    && (match enabled with | none => true | some b => e.enabled == b)

/-- The rows selected and ordered by `MirroredChannel.fetch_dests`, before
projecting out `dest_id`. -/
def fetchDestsEdges (st : RegState) (src : Nat)
    (legacy enabled : Option Bool) : List MirrorEdge :=
  sortByKeyDesc (destSortKey st.stats)
    (st.edges.filter (fetchDestsClause src legacy enabled))

/-- `MirroredChannel.fetch_dests` (schemas.py:134): all destination ids for a
source, filtered by the `legacy` and `enabled` flags (both default `True`),
ordered by descending `coalesce(population, 10^12)`. -/
def fetch_dests (st : RegState) (src : Nat)
    (legacy : Option Bool := some true) (enabled : Option Bool := some true) :
    List Nat :=
  (fetchDestsEdges st src legacy enabled).map (fun e => e.dest_id)

/-- `MirroredChannel.get_or_fetch_dests` (schemas.py:173): return the cached
destination list if the source has a cache entry (even an empty one),
otherwise fetch from storage and populate the cache.  The returned `Bool`
records whether a storage fetch happened. -/
def get_or_fetch_dests (st : RegState) (src : Nat) :
    List Nat × RegState × Bool :=
  match cacheLookup st.cache src with
  | some l => (l, st, false)
  | none =>
    let dests := fetch_dests st src
    (dests, { st with cache := cacheSet st.cache src dests }, true)

/-- `MirroredChannel.reset_dests_cache` (schemas.py:188): drop the in-memory
destination cache. -/
def reset_dests_cache (st : RegState) : RegState :=
  { st with cache := [] }

/-- The `session.merge` in `add_mirror`: upsert by the `(src_id, dest_id)`
primary key.  An existing row keeps its `legacy_error_rate` and
`legacy_disable_for_failure_on_date` (the merged transient instance sets
neither); a new row gets the column defaults (`0` and NULL). -/
def mergeEdge (edges : List MirrorEdge) (src dest : Nat)
    (server : Option Nat) (legacy enabled : Bool) : List MirrorEdge :=
  if edges.any (fun e => e.src_id == src && e.dest_id == dest) then
    edges.map (fun e =>
      if e.src_id == src && e.dest_id == dest then
        { e with dest_server_id := server, legacy := legacy, enabled := enabled }
      else e)
  else
    edges ++ [⟨src, dest, server, legacy, enabled, 0, none⟩]

/-- `MirroredChannel.add_mirror` (schemas.py:111): upsert the row; when
`legacy and enabled`, the membership test `dest_id not in
cls._dests_cache[src_id]` reads the `defaultdict`, materialising an empty
cache entry for `src_id` if absent, and appends `dest_id` when missing.
(The `_all_srcs_cache` update touches no state modelled here.) -/
def add_mirror (st : RegState) (src dest : Nat) (server : Option Nat)
    (legacy : Bool) (enabled : Bool := true) : RegState :=
  let edges := mergeEdge st.edges src dest server legacy enabled
  let cache :=
    if legacy && enabled then
      let (entry, c) := cacheGetItem st.cache src
      if dest ∈ entry then c else cacheSet c src (entry ++ [dest])
    else st.cache
  { st with edges := edges, cache := cache }

/-- `MirroredChannel.remove_mirror` (schemas.py:325): set `enabled = False`
on rows matching `(src, dest)` that are enabled, then try to remove `dest`
from the cache entry for `src` (the `defaultdict` access materialises an
empty entry), swallowing the `ValueError` when it is absent.  Any other
exception would propagate, hence the `Except` result. -/
def remove_mirror (st : RegState) (src dest : Nat) : Except String RegState :=
  let edges := st.edges.map (fun e =>
    if e.src_id == src && e.dest_id == dest && e.enabled then
      { e with enabled := false }
    else e)
  let (entry, c) := cacheGetItem st.cache src
  match listRemove entry dest with
  | .ok l => .ok { st with edges := edges, cache := cacheSet c src l }
  | .error _ => .ok { st with edges := edges, cache := c }

/-- `MirroredChannel.log_legacy_mirror_success_in_batch` (schemas.py:400):
set `legacy_error_rate = 0` on every enabled legacy row whose `src_id`
matches and whose `dest_id` is in the batch. -/
def log_legacy_mirror_success_in_batch (edges : List MirrorEdge)
    (src : Nat) (dest_ids : List Nat) : List MirrorEdge :=
  edges.map (fun e =>
    if e.src_id == src && dest_ids.contains e.dest_id && e.enabled && e.legacy
    then { e with legacy_error_rate := 0 }
    else e)

/-- `MirroredChannel.log_legacy_mirror_failure_in_batch` (schemas.py:448):
increment `legacy_error_rate` on every enabled legacy row whose `src_id`
matches and whose `dest_id` is in the batch. -/
def log_legacy_mirror_failure_in_batch (edges : List MirrorEdge)
    (src : Nat) (dest_ids : List Nat) : List MirrorEdge :=
  edges.map (fun e =>
    if e.src_id == src && dest_ids.contains e.dest_id && e.enabled && e.legacy
    then { e with legacy_error_rate := e.legacy_error_rate + 1 }
    else e)

/-- `MirroredChannel.get_legacy_failing_mirrors` (schemas.py:472): the
`(src_id, dest_id)` pairs of enabled legacy rows with
`legacy_error_rate >= threshold`. -/
def get_legacy_failing_mirrors (edges : List MirrorEdge) (threshold : Nat) :
    List (Nat × Nat) :=
  (edges.filter (fun e =>
      e.enabled && e.legacy && threshold ≤ e.legacy_error_rate)).map
    (fun e => (e.src_id, e.dest_id))

/-- Cache eviction loop of `disable_legacy_failing_mirrors`: for each
disabled pair, `cls._dests_cache[src_id].remove(dest_id)` with `ValueError`
swallowed (the `defaultdict` access materialises missing entries). -/
def evictFromCache (c : DestsCache) (src dest : Nat) : DestsCache :=
  let (entry, c') := cacheGetItem c src
  match listRemove entry dest with
  | .ok l => cacheSet c' src l
  | .error _ => c'

/-- `MirroredChannel.disable_legacy_failing_mirrors` (schemas.py:497): select
the failing pairs, then run one UPDATE whose where-clause is
`src_id IN (srcs of failing pairs) AND dest_id IN (dests of failing pairs)`
— the Cartesian product of the two id lists, not the pair list — setting
`enabled = False` and stamping `legacy_disable_for_failure_on_date = now`;
evict the failing pairs from the cache; return the failing pairs. -/
def disable_legacy_failing_mirrors (st : RegState) (now : Nat)
    (threshold : Nat := 7) : List (Nat × Nat) × RegState :=
  let mirrors_to_disable := get_legacy_failing_mirrors st.edges threshold
  let srcs := mirrors_to_disable.map (fun m => m.1)
  let dests := mirrors_to_disable.map (fun m => m.2)
  let edges := st.edges.map (fun e =>
    if srcs.contains e.src_id && dests.contains e.dest_id then
      { e with enabled := false,
               legacy_disable_for_failure_on_date := some now }
    else e)
  let cache := mirrors_to_disable.foldl
    (fun c m => evictFromCache c m.1 m.2) st.cache
  (mirrors_to_disable, { st with edges := edges, cache := cache })

/-- SQL comparison `legacy_disable_for_failure_on_date >= since`: NULL on
either side makes the predicate not hold. -/
def sqlDateGe (date since : Option Nat) : Bool :=
  match date, since with
  | some d, some s => s ≤ d
  | _, _ => false

/-- `MirroredChannel.get_legacy_mirrors_disabled_for_failure`
(schemas.py:542): the `(src_id, dest_id)` pairs of disabled legacy rows with
`legacy_disable_for_failure_on_date >= since`. -/
def get_legacy_mirrors_disabled_for_failure (edges : List MirrorEdge)
    (since : Option Nat) : List (Nat × Nat) :=
  (edges.filter (fun e =>
      !e.enabled && e.legacy
        && sqlDateGe e.legacy_disable_for_failure_on_date since)).map
    (fun e => (e.src_id, e.dest_id))

/-- `MirroredChannel.undo_auto_disable_for_failure` (schemas.py:566): select
the pairs disabled for failure since the timestamp, then run one UPDATE
whose where-clause is again the Cartesian product
`src_id IN (srcs) AND dest_id IN (dests)`, setting `enabled = True` and
`legacy_error_rate = 0`; append each selected pair's dest to its src's cache
entry; return the selected pairs. -/
def undo_auto_disable_for_failure (st : RegState) (since : Option Nat) :
    List (Nat × Nat) × RegState :=
  let mirrors_to_enable := get_legacy_mirrors_disabled_for_failure st.edges since
  let srcs := mirrors_to_enable.map (fun m => m.1)
  let dests := mirrors_to_enable.map (fun m => m.2)
  let edges := st.edges.map (fun e =>
    if srcs.contains e.src_id && dests.contains e.dest_id then
      { e with enabled := true, legacy_error_rate := 0 }
    else e)
  let cache := mirrors_to_enable.foldl
    (fun c m =>
      let (entry, c') := cacheGetItem c m.1
      cacheSet c' m.1 (entry ++ [m.2]))
    st.cache
  (mirrors_to_enable, { st with edges := edges, cache := cache })

/-! ### The create fan-out engine (`conduction/modules/mirror.py`) -/

/-- `KernelWorkDone` (mirror.py:60): the result of one delivery kernel.
`dest_message_id` stays `0` when no message was created; a caught exception
is recorded in `exception`. -/
structure KernelWorkDone where
  source_message_id : Nat
  dest_channel_id : Nat
  dest_message_id : Nat := 0
  exception : Option String := none
  retries : Nat := 0
deriving Repr, DecidableEq

/-- What the engine observes about a destination channel: whether it is
text-capable (`isinstance(channel, h.TextableChannel)`) and whether it is a
news channel (`isinstance(channel, h.GuildNewsChannel)`). -/
structure ChannelInfo where
  textable : Bool
  is_news : Bool
deriving Repr, DecidableEq

/-- Environment of one create fan-out run: the source message and channel,
the channel descriptors, and the transport send oracle mapping a destination
channel and an attempt number to a created message id or an error. -/
structure CreateEnv where
  msgId : Nat
  srcChannel : Nat
  chinfo : Nat → ChannelInfo
  send : Nat → Nat → Except String Nat

/-- The inner `kernel` of `message_create_repeater_impl` (mirror.py:350):
fetch the channel; if it is not text-capable, `raise ValueError("Channel is
not textable")`, which the kernel's own `except` catches and records in the
returned `KernelWorkDone` — exactly as it does a transport error from
`channel.send`.  On a successful send the work-done row carries the new
message id.  (The news-channel crosspost loop never turns a sent kernel into
a failure: it bounds its own retries and swallows errors, so it is not
modelled further.) -/
def create_kernel (env : CreateEnv) (mirror_ch_id : Nat)
    (current_retries : Nat) : KernelWorkDone :=
  if !(env.chinfo mirror_ch_id).textable then
    { source_message_id := env.msgId, dest_channel_id := mirror_ch_id,
      exception := some "ValueError: Channel is not textable",
      retries := current_retries }
  else
    match env.send mirror_ch_id current_retries with
    | .error e =>
      { source_message_id := env.msgId, dest_channel_id := mirror_ch_id,
        exception := some e, retries := current_retries }
    | .ok mid =>
      { source_message_id := env.msgId, dest_channel_id := mirror_ch_id,
        dest_message_id := mid, retries := current_retries }

/-- The done-task partition of the create fan-out loop (mirror.py:454-471):
a result with an exception goes to `to_retry` while `retries < max_retries`
and to `failures_to_log` otherwise; a result without an exception goes to
`successes_to_log`.  Returns `(to_retry, failures_to_log,
successes_to_log)`. -/
def partitionDone (max_retries : Nat) (done : List KernelWorkDone) :
    List KernelWorkDone × List KernelWorkDone × List KernelWorkDone :=
  done.foldl
    (fun acc r =>
      if r.exception.isSome then
        if r.retries < max_retries then (acc.1 ++ [r], acc.2.1, acc.2.2)
        else (acc.1, acc.2.1 ++ [r], acc.2.2)
      else (acc.1, acc.2.1, acc.2.2 ++ [r]))
    ([], [], [])

/-- The counts handed to `log_mirror_progress_to_discord` on one polling
interval, plus the `is_completed` flag. -/
structure ProgressSnapshot where
  successes : Nat
  retries : Nat
  failures : Nat
  pending : Nat
  is_completed : Bool
deriving Repr, DecidableEq

/-- A delivery kernel scheduled (or rescheduled) by the engine: destination
channel and the `current_retries` it will run with. -/
structure Job where
  dest : Nat
  retries : Nat
deriving Repr, DecidableEq

/-- The accumulated state of one create fan-out run: the registry rows (as
updated by the batch success/failure loggers), the `MirroredMessage` rows
added for this source message as `(dest_msg, dest_channel)` pairs, the
accumulated `successes` and `failures` lists, and the last progress
snapshot. -/
structure FanoutState where
  edges : List MirrorEdge
  records : List (Nat × Nat)
  successes : List KernelWorkDone
  failures : List KernelWorkDone
  snapshot : ProgressSnapshot
deriving Repr, DecidableEq

/-- One iteration of the create fan-out `while True` loop
(mirror.py:439-531), under the canonical schedule in which every in-flight
kernel completes within the polling window (`aio.wait` returns them all in
`done`, `pending` empty): run the kernels, partition the results, batch-log
failures and successes to the registry, batch-insert `MirroredMessage` rows
for the successes, take the progress snapshot, and reschedule the retryable
failures with `retries + 1`. -/
def fanoutRound (env : CreateEnv) (max_retries : Nat) (st : FanoutState)
    (jobs : List Job) : FanoutState × List Job :=
  let done := jobs.map (fun j => create_kernel env j.dest j.retries)
  let parts := partitionDone max_retries done
  let to_retry := parts.1
  let failures_to_log := parts.2.1
  let successes_to_log := parts.2.2
  let edges := log_legacy_mirror_failure_in_batch st.edges env.srcChannel
    (failures_to_log.map (fun f => f.dest_channel_id))
  let edges := log_legacy_mirror_success_in_batch edges env.srcChannel
    (successes_to_log.map (fun s => s.dest_channel_id))
  let records := st.records
    ++ successes_to_log.map (fun s => (s.dest_message_id, s.dest_channel_id))
  let successes := st.successes ++ successes_to_log
  let failures := st.failures ++ failures_to_log
  let snapshot : ProgressSnapshot :=
    ⟨successes.length, to_retry.length, failures.length, 0, to_retry.isEmpty⟩
  (⟨edges, records, successes, failures, snapshot⟩,
   to_retry.map (fun r => ⟨r.dest_channel_id, r.retries + 1⟩))

/-- The create fan-out loop, iterated until no jobs remain (`if
len(announce_jobs) == 0: break`) or the fuel runs out; the leftover job list
is returned so that termination is observable. -/
def fanoutLoop (env : CreateEnv) (max_retries : Nat) :
    Nat → FanoutState → List Job → FanoutState × List Job
  | 0, st, jobs => (st, jobs)
  | fuel + 1, st, jobs =>
    let (st', jobs') := fanoutRound env max_retries st jobs
    if jobs'.isEmpty then (st', [])
    else fanoutLoop env max_retries fuel st' jobs'

/-- `message_create_repeater_impl` from the point where destinations are
known (mirror.py:417-531): filter out the source channel itself, post the
initial progress message with `pending = len(mirrors)`, launch one kernel
per destination with `current_retries = 0`, and run the polling loop with
`max_retries = 2`. -/
def message_create_fanout (env : CreateEnv) (edges : List MirrorEdge)
    (mirrors : List Nat) (fuel : Nat) : FanoutState × List Job :=
  let filtered := mirrors.filter (fun x => x != env.srcChannel)
  let st0 : FanoutState :=
    ⟨edges, [], [], [], ⟨0, 0, 0, filtered.length, false⟩⟩
  fanoutLoop env 2 fuel st0 (filtered.map (fun d => ⟨d, 0⟩))

/-! ### The progress reporter (`log_mirror_progress_to_discord`) -/

/-- The progress artifact produced by a successful reporter attempt. -/
structure ProgressArtifact where
  successes : Nat
  retries : Nat
  failures : Nat
  pending : Nat
deriving Repr, DecidableEq

/-- One attempt of the body of the reporter's retry loop
(mirror.py:117-249): `progress_fraction = (successes + failures) / (pending
+ retries + successes + failures)` is computed before either the
create-message or the edit-message branch, so a zero denominator raises
`ZeroDivisionError`, which the surrounding `except Exception` catches. -/
def log_mirror_progress_attempt (successes retries failures pending : Nat) :
    Except String ProgressArtifact :=
  if pending + retries + successes + failures == 0 then
    .error "ZeroDivisionError"
  else
    .ok ⟨successes, retries, failures, pending⟩

/-- The reporter's retry loop for a first or completion message:
`max_tries = -1`, and `tries` (0, 1, 2, ...) never equals `-1`, so the loop
is left only by a successful attempt.  `n` bounds the attempts observed;
`none` means no attempt among the first `n` produced the artifact. -/
def log_mirror_progress_first (successes retries failures pending : Nat) :
    Nat → Option ProgressArtifact
  | 0 => none
  | n + 1 =>
    match log_mirror_progress_attempt successes retries failures pending with
    | .ok a => some a
    | .error _ => log_mirror_progress_first successes retries failures pending n

/-! ### The rate limiter (`TimedSemaphore`, mirror.py:33-56) -/

/-- State of the `TimedSemaphore` model: `avail` is the internal
`asyncio.Semaphore` counter, `inflight` counts protected operations that
have been admitted (acquire returned) and have not yet completed (release
not yet called), `pending` holds one `(callTime, dueTime)` entry per release
whose cooldown `aio.sleep(period)` is still running, and `now` is the
current time. -/
structure SemState where
  avail : Nat
  inflight : Nat
  pending : List (Nat × Nat)
  now : Nat
deriving Repr, DecidableEq

/-- Transitions of the timed-semaphore model with cooldown `period`:
* `advance`: time moves forward;
* `acquire`: `Semaphore.acquire` returns, enabled only when a slot is
  available;
* `releaseCall`: a protected operation completes and `release` is called,
  which first runs `await aio.sleep(self.period)` — the slot is not yet
  available, an entry due at `now + period` is pending;
* `releaseFire`: a pending release whose due time has been reached runs
  `super().release()`, making the slot available to waiters. -/
inductive SemStep (period : Nat) : SemState → SemState → Prop
  | advance (s : SemState) (t : Nat) (h : s.now ≤ t) :
      SemStep period s ⟨s.avail, s.inflight, s.pending, t⟩
  | acquire (s : SemState) (h : 0 < s.avail) :
      SemStep period s ⟨s.avail - 1, s.inflight + 1, s.pending, s.now⟩
  | releaseCall (s : SemState) (h : 0 < s.inflight) :
      SemStep period s
        ⟨s.avail, s.inflight - 1, (s.now, s.now + period) :: s.pending, s.now⟩
  | releaseFire (s : SemState) (ct dt : Nat) (hmem : (ct, dt) ∈ s.pending)
      (hdue : dt ≤ s.now) :
      SemStep period s
        ⟨s.avail + 1, s.inflight, s.pending.erase (ct, dt), s.now⟩

/-- The freshly constructed `TimedSemaphore(value, period)`: all slots
available, nothing in flight, no pending release. -/
def semInit (value : Nat) : SemState := ⟨value, 0, [], 0⟩

/-- States reachable from `TimedSemaphore(value, period)`'s initial state. -/
def SemReachable (value period : Nat) (s : SemState) : Prop :=
  Relation.ReflTransGen (SemStep period) (semInit value) s

/-! ### Helper lemmas -/

theorem cacheLookup_cacheSet (c : DestsCache) (k : Nat) (v : List Nat) :
    cacheLookup (cacheSet c k v) k = some v := by
  induction c with
  | nil => simp [cacheSet, cacheLookup]
  | cons p rest ih =>
    by_cases hpk : p.1 = k
    · simp [cacheSet, hpk, cacheLookup]
    · simp only [cacheSet, cacheLookup] at ih ⊢
      simp [hpk, List.find?, ih]

theorem mem_insertByKeyDesc (key : MirrorEdge → Nat) (x a : MirrorEdge)
    (l : List MirrorEdge) :
    a ∈ insertByKeyDesc key x l ↔ a = x ∨ a ∈ l := by
  induction l with
  | nil => simp [insertByKeyDesc]
  | cons y ys ih =>
    simp only [insertByKeyDesc]
    by_cases hk : key y < key x
    · simp [hk, List.mem_cons]
    · simp only [hk, if_false, List.mem_cons, ih]
      tauto

theorem mem_sortByKeyDesc (key : MirrorEdge → Nat) (a : MirrorEdge)
    (l : List MirrorEdge) : a ∈ sortByKeyDesc key l ↔ a ∈ l := by
  induction l with
  | nil => simp [sortByKeyDesc]
  | cons y ys ih =>
    simp only [sortByKeyDesc, mem_insertByKeyDesc, ih, List.mem_cons]

theorem pairwise_insertByKeyDesc (key : MirrorEdge → Nat) (x : MirrorEdge)
    (l : List MirrorEdge) (h : l.Pairwise fun a b => key b ≤ key a) :
    (insertByKeyDesc key x l).Pairwise fun a b => key b ≤ key a := by
  induction l with
  | nil => simp [insertByKeyDesc]
  | cons y ys ih =>
    rcases List.pairwise_cons.mp h with ⟨hy, hys⟩
    simp only [insertByKeyDesc]
    by_cases hk : key y < key x
    · simp only [hk, if_true]
      refine List.pairwise_cons.mpr ⟨?_, h⟩
      intro z hz
      rcases List.mem_cons.mp hz with rfl | hz
      · exact Nat.le_of_lt hk
      · exact Nat.le_trans (hy z hz) (Nat.le_of_lt hk)
    · simp only [hk, if_false]
      refine List.pairwise_cons.mpr ⟨?_, ih hys⟩
      intro z hz
      rcases (mem_insertByKeyDesc key x z ys).mp hz with rfl | hz
      · exact Nat.le_of_not_lt hk
      · exact hy z hz

theorem pairwise_sortByKeyDesc (key : MirrorEdge → Nat) (l : List MirrorEdge) :
    (sortByKeyDesc key l).Pairwise fun a b => key b ≤ key a := by
  induction l with
  | nil => simp [sortByKeyDesc]
  | cons y ys ih => exact pairwise_insertByKeyDesc key y _ ih

/-! ### Claim theorems -/

/-- C1: the claim says `disable_legacy_failing_mirrors` disables exactly the
enabled legacy edges with `error_count ≥ T` and no other edges.  The code
violates this: its UPDATE's where-clause is the Cartesian product
`src_id IN srcs AND dest_id IN dests` of the failing pairs' id lists.  At
this concrete registry — failing edges `(1,10)` and `(2,20)` with error
count 7, plus a healthy edge `(1,20)` with error count 0 — the healthy edge
`(1,20)` is also disabled and stamped, even though it is not failing and is
not in the returned list. -/
theorem c1_disable_failing_cartesian_bug :
    let st : RegState :=
      ⟨[⟨1, 10, none, true, true, 7, none⟩,
        ⟨2, 20, none, true, true, 7, none⟩,
        ⟨1, 20, none, true, true, 0, none⟩], [], []⟩
    let out := disable_legacy_failing_mirrors st 99 7
    get_legacy_failing_mirrors st.edges 7 = [(1, 10), (2, 20)]
      ∧ out.1 = [(1, 10), (2, 20)]
      ∧ List.find? (fun e => e.src_id == 1 && e.dest_id == 20) out.2.edges
          = some ⟨1, 20, none, true, false, 0, some 99⟩ := by
  decide

/-- C4: the claim says `undo_auto_disable_for_failure` re-enables exactly the
legacy edges auto-disabled for failure at or after the timestamp and no
other edges.  The code violates this with the same Cartesian-product
where-clause as `disable_legacy_failing_mirrors`: at this concrete registry
— edges `(1,10)` and `(2,20)` auto-disabled at time 5, plus edge `(1,20)`
disabled with no failure date (for example by `remove_mirror`) — the edge
`(1,20)` is also re-enabled and its error count reset, even though it was
never auto-disabled for failure and is not in the returned list. -/
theorem c4_undo_disable_cartesian_bug :
    let st : RegState :=
      ⟨[⟨1, 10, none, true, false, 8, some 5⟩,
        ⟨2, 20, none, true, false, 9, some 5⟩,
        ⟨1, 20, none, true, false, 3, none⟩], [], []⟩
    let out := undo_auto_disable_for_failure st (some 3)
    get_legacy_mirrors_disabled_for_failure st.edges (some 3) = [(1, 10), (2, 20)]
      ∧ out.1 = [(1, 10), (2, 20)]
      ∧ List.find? (fun e => e.src_id == 1 && e.dest_id == 20) out.2.edges
          = some ⟨1, 20, none, true, true, 0, none⟩ := by
  decide

/-- C2 counterexample: the claim says a non-text-capable destination is an
immediate terminal failure that does not pass through the retryable-failure
path.  At this concrete input — a non-textable destination channel on a
first attempt — the kernel's result carries the caught `ValueError` and the
done-task partition places it in `to_retry` (first component), not in
`failures_to_log` (second component): it IS routed through the
retryable-failure path. -/
theorem c2_nontextable_retried_counterexample :
    let env : CreateEnv := ⟨500, 100, fun _ => ⟨false, false⟩, fun _ _ => .ok 7⟩
    let r := create_kernel env 42 0
    r.exception.isSome = true
      ∧ partitionDone 2 [r] = ([r], [], []) := by
  constructor
  · rfl
  · rfl

/-- C2 amended: a non-text-capable destination never receives a message (the
kernel raises before any send, so `dest_message_id` stays 0), but the
resulting failure goes through the same retryable-failure path as transient
transport errors: it is rescheduled while `retries < max_retries` (2) and
becomes a terminal failure only once the retry budget is exhausted. -/
theorem c2_nontextable_goes_through_retry_path (env : CreateEnv)
    (ch retries : Nat) (h : (env.chinfo ch).textable = false) :
    (create_kernel env ch retries).exception.isSome = true
      ∧ (create_kernel env ch retries).dest_message_id = 0
      ∧ partitionDone 2 [create_kernel env ch retries]
          = (if retries < 2 then ([create_kernel env ch retries], [], [])
             else ([], [create_kernel env ch retries], [])) := by
  have hk : create_kernel env ch retries
      = { source_message_id := env.msgId, dest_channel_id := ch,
          exception := some "ValueError: Channel is not textable",
          retries := retries } := by
    simp [create_kernel, h]
  rw [hk]
  refine ⟨rfl, rfl, ?_⟩
  by_cases hr : retries < 2
  · simp [partitionDone, hr]
  · simp [partitionDone, hr]

/-- C2 witness: the amended theorem applied to a concrete non-textable
destination on the first attempt. -/
theorem c2_nontextable_goes_through_retry_path_witness :
    let env : CreateEnv := ⟨500, 100, fun _ => ⟨false, false⟩, fun _ _ => .ok 7⟩
    (create_kernel env 42 0).exception.isSome = true
      ∧ (create_kernel env 42 0).dest_message_id = 0
      ∧ partitionDone 2 [create_kernel env 42 0]
          = (if 0 < 2 then ([create_kernel env 42 0], [], [])
             else ([], [create_kernel env 42 0], [])) :=
  c2_nontextable_goes_through_retry_path
    ⟨500, 100, fun _ => ⟨false, false⟩, fun _ _ => .ok 7⟩ 42 0 rfl

/-- C7: immediately after `reset_dests_cache`, `get_or_fetch_dests` returns
for every source exactly what a direct `fetch_dests` on the same stored
state returns; and a cached entry — an explicitly empty list included — is
returned as-is with no storage fetch (the returned flag is `false` and the
state is untouched). -/
theorem c7_cache_reset_consistency (st : RegState) (src : Nat) (l : List Nat)
    (h : cacheLookup st.cache src = some l) :
    (get_or_fetch_dests (reset_dests_cache st) src).1 = fetch_dests st src
      ∧ get_or_fetch_dests st src = (l, st, false) := by
  constructor
  · rfl
  · simp [get_or_fetch_dests, h]

/-- C7 witness: a state whose cache holds the explicitly empty list for
source 5; `get_or_fetch_dests` after a reset agrees with `fetch_dests`, and
the cached empty list is served without a storage fetch. -/
theorem c7_cache_reset_consistency_witness :
    let st : RegState := ⟨[⟨5, 6, none, true, true, 0, none⟩], [], [(5, [])]⟩
    (get_or_fetch_dests (reset_dests_cache st) 5).1 = fetch_dests st 5
      ∧ get_or_fetch_dests st 5 = ([], st, false) :=
  c7_cache_reset_consistency ⟨[⟨5, 6, none, true, true, 0, none⟩], [], [(5, [])]⟩ 5 [] rfl

/-- C9: when the source has no cache entry, `add_mirror(src, dest,
legacy=True, enabled=True)` seeds the entry with exactly `[dest]` (the
`defaultdict` access materialises an empty list and the append adds the new
destination), so `get_or_fetch_dests` then answers `[dest]` from the cache —
whatever other destinations storage holds — without fetching and without
changing the state, hence every subsequent call answers the same until the
cache is reset. -/
theorem c9_add_mirror_seeds_cache_with_only_new_dest (st : RegState)
    (src dest : Nat) (server : Option Nat)
    (h : cacheLookup st.cache src = none) :
    cacheLookup (add_mirror st src dest server true true).cache src = some [dest]
      ∧ get_or_fetch_dests (add_mirror st src dest server true true) src
          = ([dest], add_mirror st src dest server true true, false) := by
  have hc : (add_mirror st src dest server true true).cache
      = cacheSet (cacheSet st.cache src []) src [dest] := by
    simp [add_mirror, cacheGetItem, h]
  have hl : cacheLookup (add_mirror st src dest server true true).cache src
      = some [dest] := by
    rw [hc]
    exact cacheLookup_cacheSet (cacheSet st.cache src []) src [dest]
  exact ⟨hl, by simp [get_or_fetch_dests, hl]⟩

/-- C9 witness: storage already holds the enabled legacy edge `(1, 2)`, the
cache has no entry for source 1; after `add_mirror(1, 3)` the cache entry is
exactly `[3]` and `get_or_fetch_dests` serves `[3]` from the cache, even
though a direct storage fetch would also return destination 2. -/
theorem c9_add_mirror_seeds_cache_with_only_new_dest_witness :
    let st : RegState := ⟨[⟨1, 2, none, true, true, 0, none⟩], [], []⟩
    (cacheLookup (add_mirror st 1 3 none true true).cache 1 = some [3]
        ∧ get_or_fetch_dests (add_mirror st 1 3 none true true) 1
            = ([3], add_mirror st 1 3 none true true, false))
      ∧ fetch_dests (add_mirror st 1 3 none true true) 1 = [3, 2] :=
  ⟨c9_add_mirror_seeds_cache_with_only_new_dest
      ⟨[⟨1, 2, none, true, true, 0, none⟩], [], []⟩ 1 3 none rfl,
   by decide⟩

/-- C10: `log_mirror_progress_to_discord` divides `successes + failures` by
`pending + retries + successes + failures` before any other branch of its
attempt body, so when all four counts are zero every attempt of the retry
loop fails with `ZeroDivisionError` and — the first/completion message
retrying forever — no progress artifact is ever produced, however many
attempts run.  A create fan-out whose only resolved destination is the
source channel itself reaches exactly this call: the loop-prevention filter
leaves zero kernels and the initial report is made with all counts zero. -/
theorem c10_progress_report_division_by_zero (s r f p n : Nat)
    (h : p + r + s + f = 0) :
    log_mirror_progress_attempt s r f p = .error "ZeroDivisionError"
      ∧ log_mirror_progress_first s r f p n = none := by
  have hs : s = 0 := by omega
  have hr : r = 0 := by omega
  have hf : f = 0 := by omega
  have hp : p = 0 := by omega
  subst hs; subst hr; subst hf; subst hp
  refine ⟨rfl, ?_⟩
  induction n with
  | zero => rfl
  | succ k ih => simpa [log_mirror_progress_first, log_mirror_progress_attempt]
      using ih

/-- C10 witness: the counts of the initial progress call of a create fan-out
whose only destination is the source channel itself (the filter removes it,
leaving zero pending kernels), at which three reporter attempts all fail
and produce nothing. -/
theorem c10_progress_report_division_by_zero_witness :
    ([100].filter (fun x => x != 100)).length = 0
      ∧ (log_mirror_progress_attempt 0 0 0 0 = .error "ZeroDivisionError"
          ∧ log_mirror_progress_first 0 0 0 0 3 = none) :=
  ⟨by decide, c10_progress_report_division_by_zero 0 0 0 0 3 rfl⟩

/-- C3: the concrete retry scenario.  Source channel 100 fans out message
500 to destinations {1, 2, 3}; the transport fails for destination 2 on
attempts 0 and 1 and succeeds on attempt 2 (`max_retries = 2`, so up to 3
tries); destination 2's edge starts with error count 5 so that the reset is
visible.  The run terminates with no jobs left; `MirroredMessage` rows exist
for all three destinations (one each); the error count of edge `(100, 2)`
ends at 0, reset by the success batch of the final round; and the final
progress snapshot is successes = 3, retries = 0, failures = 0, pending = 0,
completed. -/
theorem c3_retry_scenario :
    let env : CreateEnv :=
      ⟨500, 100, fun _ => ⟨true, false⟩,
       fun d a => if d == 2 && a < 2 then .error "transport" else .ok (1000 + d * 10 + a)⟩
    let edges : List MirrorEdge :=
      [⟨100, 1, none, true, true, 0, none⟩,
       ⟨100, 2, none, true, true, 5, none⟩,
       ⟨100, 3, none, true, true, 0, none⟩]
    let out := message_create_fanout env edges [1, 2, 3] 10
    out.2 = []
      ∧ (out.1.records.map (fun rec => rec.2)).length = 3
      ∧ [1, 2, 3].all (fun d => (out.1.records.map (fun rec => rec.2)).contains d) = true
      ∧ (List.find? (fun e => e.src_id == 100 && e.dest_id == 2) out.1.edges).map
          (fun e => e.legacy_error_rate) = some 0
      ∧ out.1.snapshot = ⟨3, 0, 0, 0, true⟩ := by
  decide

/-- C6 counterexample: the claim says a destination with unknown server
population sorts as if its population were maximal.  At this concrete input,
destination 1's server has the known population `2 * 10^12` and destination
2's server has no statistics row (unknown population), yet `fetch_dests`
returns `[1, 2]`: the known-population destination sorts strictly ahead of
the unknown-population one, because unknown coalesces to the sentinel
`10^12`, which is not maximal. -/
theorem c6_unknown_population_not_maximal_counterexample :
    let st : RegState :=
      ⟨[⟨0, 2, some 12, true, true, 0, none⟩,
        ⟨0, 1, some 11, true, true, 0, none⟩],
       [⟨11, some (2 * 10 ^ 12)⟩], []⟩
    destPopulation st.stats ⟨0, 2, some 12, true, true, 0, none⟩ = none
      ∧ destPopulation st.stats ⟨0, 1, some 11, true, true, 0, none⟩
          = some (2 * 10 ^ 12)
      ∧ fetch_dests st 0 = [1, 2] := by
  decide

/-- C6 amended: `fetch_dests` orders destinations by descending
`coalesce(population, 10^12)`, so a destination with unknown population
sorts with the sentinel key `10^12` — ahead of every destination with a
known population below `10^12` (not ahead of all known populations): any
known-population destination listed strictly before an unknown-population
one has population at least `10^12`. -/
theorem c6_unknown_population_sorts_with_sentinel (st : RegState) (src : Nat)
    (legacy enabled : Option Bool) (i j : Nat) (p : Nat)
    (hij : i < j) (hj : j < (fetchDestsEdges st src legacy enabled).length)
    (hunknown : destPopulation st.stats
        ((fetchDestsEdges st src legacy enabled).get ⟨j, hj⟩) = none)
    (hknown : destPopulation st.stats
        ((fetchDestsEdges st src legacy enabled).get
          ⟨i, Nat.lt_trans hij hj⟩) = some p) :
    10 ^ 12 ≤ p := by
  have hpair := pairwise_sortByKeyDesc (destSortKey st.stats)
    (st.edges.filter (fetchDestsClause src legacy enabled))
  have hpair2 : (fetchDestsEdges st src legacy enabled).Pairwise
      fun a b => destSortKey st.stats b ≤ destSortKey st.stats a := hpair
  have hij2 := (List.pairwise_iff_get.mp hpair2)
    ⟨i, Nat.lt_trans hij hj⟩ ⟨j, hj⟩ hij
  have hkj : destSortKey st.stats
      ((fetchDestsEdges st src legacy enabled).get ⟨j, hj⟩) = 10 ^ 12 := by
    unfold destSortKey
    rw [hunknown]
    rfl
  have hki : destSortKey st.stats
      ((fetchDestsEdges st src legacy enabled).get
        ⟨i, Nat.lt_trans hij hj⟩) = p := by
    unfold destSortKey
    rw [hknown]
    rfl
  rw [hkj, hki] at hij2
  exact hij2

/-- C6 witness: the amended theorem applied at the counterexample's input —
the destination listed ahead of the unknown-population one has known
population `2 * 10^12 ≥ 10^12`. -/
theorem c6_unknown_population_sorts_with_sentinel_witness :
    10 ^ 12 ≤ 2 * 10 ^ 12 :=
  c6_unknown_population_sorts_with_sentinel
    ⟨[⟨0, 2, some 12, true, true, 0, none⟩,
      ⟨0, 1, some 11, true, true, 0, none⟩],
     [⟨11, some (2 * 10 ^ 12)⟩], []⟩
    0 (some true) (some true) 0 1 (2 * 10 ^ 12)
    (by decide) (by decide) (by decide) (by decide)

theorem not_mem_fetch_dests (st2 : RegState) (src dest : Nat)
    (h : ∀ e ∈ st2.edges, e.src_id = src → e.dest_id = dest →
      e.enabled = false) :
    dest ∉ fetch_dests st2 src := by
  intro hmem
  rcases List.mem_map.mp hmem with ⟨e, he, hde⟩
  have he2 := (mem_sortByKeyDesc (destSortKey st2.stats) e _).mp he
  have hcl := List.of_mem_filter he2
  have hee := List.mem_of_mem_filter he2
  unfold fetchDestsClause at hcl
  simp only [Bool.and_eq_true, beq_iff_eq] at hcl
  have := h e hee hcl.1.1 hde
  rw [this] at hcl
  simp at hcl

/-- C8: `remove_mirror` never raises — the `ValueError` of the cache
removal is caught, every other path returns normally — and afterwards
`fetch_dests` (the enabled-legacy destination listing) no longer includes
the removed destination, because the UPDATE set `enabled = False` on every
enabled row of the pair. -/
theorem c8_remove_mirror_excludes_and_never_raises (st : RegState)
    (src dest : Nat) :
    ∃ st2, remove_mirror st src dest = .ok st2
      ∧ dest ∉ fetch_dests st2 src := by
  have hmap : ∀ e ∈ st.edges.map (fun e =>
      if e.src_id == src && e.dest_id == dest && e.enabled then
        { e with enabled := false }
      else e),
      e.src_id = src → e.dest_id = dest → e.enabled = false := by
    intro e he hsrc hdest
    rcases List.mem_map.mp he with ⟨e0, _, rfl⟩
    by_cases hc : (e0.src_id == src && e0.dest_id == dest && e0.enabled) = true
    · simp [hc]
    · simp only [hc, if_false] at hsrc hdest ⊢
      simp only [Bool.and_eq_true, beq_iff_eq, not_and] at hc
      exact Bool.eq_false_iff.mpr (fun ht => hc ⟨hsrc, hdest⟩ ht)
  unfold remove_mirror
  cases hlr : listRemove (cacheGetItem st.cache src).1 dest with
  | ok l =>
    simp only [hlr]
    exact ⟨_, rfl, not_mem_fetch_dests _ src dest hmap⟩
  | error err =>
    simp only [hlr]
    exact ⟨_, rfl, not_mem_fetch_dests _ src dest hmap⟩

/-- Every `SemStep` preserves the timed-semaphore invariant: the slot count
splits exactly into available slots, in-flight operations and pending
cooldowns, and every pending cooldown is due exactly `period` after its
release call. -/
theorem semStep_invariant {value period : Nat} {s s2 : SemState}
    (hstep : SemStep period s s2)
    (hcount : s.avail + s.inflight + s.pending.length = value)
    (hdue : ∀ q ∈ s.pending, q.1 + period = q.2) :
    s2.avail + s2.inflight + s2.pending.length = value
      ∧ ∀ q ∈ s2.pending, q.1 + period = q.2 := by
  cases hstep with
  | advance t ht => exact ⟨hcount, hdue⟩
  | acquire ha =>
    refine ⟨?_, hdue⟩
    show s.avail - 1 + (s.inflight + 1) + s.pending.length = value
    omega
  | releaseCall hr =>
    refine ⟨?_, ?_⟩
    · show s.avail + (s.inflight - 1)
        + ((s.now, s.now + period) :: s.pending).length = value
      simp only [List.length_cons]
      omega
    · intro q hq
      rcases List.mem_cons.mp hq with rfl | hq
      · rfl
      · exact hdue q hq
  | releaseFire ct dt hmem hd =>
    refine ⟨?_, ?_⟩
    · show s.avail + 1 + s.inflight + (s.pending.erase (ct, dt)).length = value
      have hlen := List.length_erase_of_mem hmem
      have hpos : 0 < s.pending.length := List.length_pos_of_mem hmem
      omega
    · intro q hq
      exact hdue q (List.mem_of_mem_erase hq)

/-- The timed-semaphore invariant holds in every reachable state. -/
theorem semReachable_invariant (value period : Nat) (s : SemState)
    (h : SemReachable value period s) :
    s.avail + s.inflight + s.pending.length = value
      ∧ ∀ q ∈ s.pending, q.1 + period = q.2 := by
  unfold SemReachable at h
  induction h with
  | refl => exact ⟨by simp [semInit], by simp [semInit]⟩
  | tail _ hstep ih => exact semStep_invariant hstep ih.1 ih.2

/-- C5: in every state reachable from `TimedSemaphore()` — 30 slots,
cooldown period 1 second — at most 30 protected operations are in flight at
once, and every pending release cooldown is due strictly after the time its
`release` was called (it is due exactly `period = 1` later, and the
`releaseFire` transition requires the due time to have been reached), so a
slot released after an operation completes never becomes available to
waiters at the instant of the release call, only after the cooldown. -/
theorem c5_timed_semaphore_bounds (s : SemState)
    (h : SemReachable 30 1 s) :
    s.inflight ≤ 30
      ∧ s.pending.all (fun q => decide (q.1 < q.2)) = true := by
  obtain ⟨hcount, hdue⟩ := semReachable_invariant 30 1 s h
  refine ⟨by omega, ?_⟩
  rw [List.all_eq_true]
  intro q hq
  have := hdue q hq
  simp only [decide_eq_true_eq]
  omega

/-- C5 witness: the state after one `acquire` and one `release` call on a
fresh `TimedSemaphore()` — 29 slots free, nothing in flight, one cooldown
pending from time 0 due at time 1 — is reachable, and the theorem's bounds
hold there. -/
theorem c5_timed_semaphore_bounds_witness :
    (⟨29, 0, [(0, 1)], 0⟩ : SemState).inflight ≤ 30
      ∧ (⟨29, 0, [(0, 1)], 0⟩ : SemState).pending.all
          (fun q => decide (q.1 < q.2)) = true := by
  have h1 : SemStep 1 (semInit 30) ⟨29, 1, [], 0⟩ :=
    SemStep.acquire (semInit 30) (by decide)
  have h2 : SemStep 1 ⟨29, 1, [], 0⟩ ⟨29, 0, [(0, 1)], 0⟩ :=
    SemStep.releaseCall ⟨29, 1, [], 0⟩ (by decide)
  exact c5_timed_semaphore_bounds ⟨29, 0, [(0, 1)], 0⟩
    (Relation.ReflTransGen.tail
      (Relation.ReflTransGen.tail Relation.ReflTransGen.refl h1) h2)

end Conduction
